import Mathlib

/-!
Shallow embedding of the gfx backend bootstrap and frame-lifecycle coordinator:
`src/extra/canvas.rs` (the frame coordinator) and
`src/backend/vulkan/src/lib.rs` (the Vulkan backend bootstrap), together with
proofs of the specified properties.
-/

namespace canvas

/-- Mirrors `struct Canvas<W, D, F>` of `extra/canvas.rs` (lines 28-37):
output window, graphics device, resource factory and the renderer front-end.
The renderer type is a further parameter `R` here because the concrete
`Renderer<..>` type lives outside `src/`. -/
structure Canvas (W D F R : Type) where
  output : W
  device : D
  factory : F
  renderer : R
deriving DecidableEq

/-- Modelled from the spec: the collaborator contracts of section 6, whose
defining traits (`Device`, `Factory`, `Window`, `Renderer`) live outside
`src/`.  Each method is a state transformer on its collaborator that also
emits a list of observation events: empty for an uninstrumented collaborator,
one event per call for an instrumented mock. -/
structure CanvasOps (W D F R Buf E : Type) where
  as_buffer : R → Buf × List E
  submit : D → Buf → D × List E
  swap_buffers : W → W × List E
  after_frame : D → D × List E
  cleanup : F → F × List E
  reset : R → R × List E
  create_renderer : F → (F × R) × List E

variable {W D F R Buf E : Type}

/-- Mirrors `Canvas::present` (canvas.rs lines 73-79): submit the renderer's
command buffer to the device, swap the output's buffers, device frame
bookkeeping, factory cleanup, renderer reset, in source order.  The second
component is the concatenated observation trace of the collaborator calls. -/
def Canvas.present (ops : CanvasOps W D F R Buf E) (c : Canvas W D F R) :
    Canvas W D F R × List E :=
  let buf := ops.as_buffer c.renderer
  let dev1 := ops.submit c.device buf.1
  let out1 := ops.swap_buffers c.output
  let dev2 := ops.after_frame dev1.1
  let fac1 := ops.cleanup c.factory
  let ren1 := ops.reset c.renderer
  ({ output := out1.1, device := dev2.1, factory := fac1.1, renderer := ren1.1 },
    buf.2 ++ dev1.2 ++ out1.2 ++ dev2.2 ++ fac1.2 ++ ren1.2)

/-- Mirrors `IntoCanvas::into_canvas` for the `(W, D, F)` triple
(canvas.rs lines 45-55): ask the factory to create one renderer, then
assemble the canvas from the triple and that renderer. -/
def into_canvas (ops : CanvasOps W D F R Buf E) (t : W × D × F) :
    Canvas W D F R × List E :=
  let cr := ops.create_renderer t.2.2
  ({ output := t.1, device := t.2.1, factory := cr.1.1, renderer := cr.1.2 }, cr.2)

/-- Observation events recorded by the instrumented mock collaborators. -/
inductive MockCall where
  | submit (buf : Nat)
  | swap_buffers
  | after_frame
  | cleanup
  | reset
  | create_renderer
deriving DecidableEq

/-- Instrumented mock collaborators: every collaborator state is a `Nat`
payload that the mocks leave unchanged, every mutating call appends exactly
one `MockCall` event, the mock renderer's `as_buffer` returns the renderer
payload as the command-buffer view, and `create_renderer` returns the fresh
renderer `r0`. -/
def mockOps (r0 : Nat) : CanvasOps Nat Nat Nat Nat Nat MockCall where
  as_buffer := fun r => (r, [])
  submit := fun d buf => (d, [.submit buf])
  swap_buffers := fun w => (w, [.swap_buffers])
  after_frame := fun d => (d, [.after_frame])
  cleanup := fun f => (f, [.cleanup])
  reset := fun r => (r, [.reset])
  create_renderer := fun f => ((f, r0), [.create_renderer])

/-- Claim C1: on a canvas whose collaborators are the instrumented mocks,
every invocation of `present` observes exactly the collaborator calls
`device.submit(renderer.as_buffer())`, `output.swap_buffers()`,
`device.after_frame()`, `factory.cleanup()`, `renderer.reset()`, each exactly
once and in that order, with no other collaborator calls. -/
theorem present_call_order (r0 : Nat) (c : Canvas Nat Nat Nat Nat) :
    (Canvas.present (mockOps r0) c).2 =
      [MockCall.submit ((mockOps r0).as_buffer c.renderer).1,
       MockCall.swap_buffers, MockCall.after_frame,
       MockCall.cleanup, MockCall.reset] := rfl

/-- Claim C8: `into_canvas` performs exactly one collaborator call, namely
`factory.create_renderer()`, returns a canvas whose output, device and
factory fields are the triple's components unchanged, and stores the renderer
returned by that single call. -/
theorem into_canvas_assembly (r0 w d f : Nat) :
    into_canvas (mockOps r0) (w, d, f) =
      ({ output := w, device := d, factory := f,
         renderer := ((mockOps r0).create_renderer f).1.2 },
       [MockCall.create_renderer]) := rfl

end canvas

namespace vulkan

namespace vk

/-! Status codes and structure tags of the Rust `vk` module.  That module
(vk_bindings.rs) is generated at build time from the Vulkan API and is not
under `src/`, so the numeric values here are the ones fixed by the Vulkan
specification. -/

def SUCCESS : Int := 0

def NOT_READY : Int := 1

def TIMEOUT : Int := 2

def EVENT_SET : Int := 3

def EVENT_RESET : Int := 4

def INCOMPLETE : Int := 5

def ERROR_OUT_OF_HOST_MEMORY : Int := -1

def ERROR_OUT_OF_DEVICE_MEMORY : Int := -2

def ERROR_INITIALIZATION_FAILED : Int := -3

def ERROR_DEVICE_LOST : Int := -4

def ERROR_MEMORY_MAP_FAILED : Int := -5

def ERROR_LAYER_NOT_PRESENT : Int := -6

def ERROR_EXTENSION_NOT_PRESENT : Int := -7

def ERROR_FEATURE_NOT_PRESENT : Int := -8

def ERROR_INCOMPATIBLE_DRIVER : Int := -9

def ERROR_TOO_MANY_OBJECTS : Int := -10

def ERROR_FORMAT_NOT_SUPPORTED : Int := -11

def ERROR_SURFACE_LOST_KHR : Int := -1000000000

def ERROR_NATIVE_WINDOW_IN_USE_KHR : Int := -1000000001

def SUBOPTIMAL_KHR : Int := 1000001003

def ERROR_OUT_OF_DATE_KHR : Int := -1000001004

def ERROR_INCOMPATIBLE_DISPLAY_KHR : Int := -1000003001

def ERROR_VALIDATION_FAILED_EXT : Int := -1000011001

def STRUCTURE_TYPE_APPLICATION_INFO : Nat := 0

def STRUCTURE_TYPE_INSTANCE_CREATE_INFO : Nat := 1

end vk

/-- Mirrors `pub struct Error(vk::Result)` (lib.rs line 170). -/
structure Error where
  code : Int
deriving DecidableEq

/-- Mirrors `impl fmt::Debug for Error` (lib.rs lines 172-201): map the
native status code to its fixed category string, with the catch-all
"unknown" for any code without a dedicated arm. -/
def Error.fmt (e : Error) : String :=
  if e.code = vk.SUCCESS then "success"
  else if e.code = vk.NOT_READY then "not ready"
  else if e.code = vk.TIMEOUT then "timeout"
  else if e.code = vk.EVENT_SET then "event_set"
  else if e.code = vk.EVENT_RESET then "event_reset"
  else if e.code = vk.INCOMPLETE then "incomplete"
  else if e.code = vk.ERROR_OUT_OF_HOST_MEMORY then "out of host memory"
  else if e.code = vk.ERROR_OUT_OF_DEVICE_MEMORY then "out of device memory"
  else if e.code = vk.ERROR_INITIALIZATION_FAILED then "initialization failed"
  else if e.code = vk.ERROR_DEVICE_LOST then "device lost"
  else if e.code = vk.ERROR_MEMORY_MAP_FAILED then "memory map failed"
  else if e.code = vk.ERROR_LAYER_NOT_PRESENT then "layer not present"
  else if e.code = vk.ERROR_EXTENSION_NOT_PRESENT then "extension not present"
  else if e.code = vk.ERROR_FEATURE_NOT_PRESENT then "feature not present"
  else if e.code = vk.ERROR_INCOMPATIBLE_DRIVER then "incompatible driver"
  else if e.code = vk.ERROR_TOO_MANY_OBJECTS then "too many objects"
  else if e.code = vk.ERROR_FORMAT_NOT_SUPPORTED then "format not supported"
  else if e.code = vk.ERROR_SURFACE_LOST_KHR then "surface lost (KHR)"
  else if e.code = vk.ERROR_NATIVE_WINDOW_IN_USE_KHR then "native window in use (KHR)"
  else if e.code = vk.SUBOPTIMAL_KHR then "suboptimal (KHR)"
  else if e.code = vk.ERROR_OUT_OF_DATE_KHR then "out of date (KHR)"
  else if e.code = vk.ERROR_INCOMPATIBLE_DISPLAY_KHR then "incompatible display (KHR)"
  else if e.code = vk.ERROR_VALIDATION_FAILED_EXT then "validation failed (EXT)"
  else "unknown"

/-- The status codes that have a dedicated arm in `Error::fmt`. -/
def recognizedCodes : List Int :=
  [vk.SUCCESS, vk.NOT_READY, vk.TIMEOUT, vk.EVENT_SET, vk.EVENT_RESET,
   vk.INCOMPLETE, vk.ERROR_OUT_OF_HOST_MEMORY, vk.ERROR_OUT_OF_DEVICE_MEMORY,
   vk.ERROR_INITIALIZATION_FAILED, vk.ERROR_DEVICE_LOST,
   vk.ERROR_MEMORY_MAP_FAILED, vk.ERROR_LAYER_NOT_PRESENT,
   vk.ERROR_EXTENSION_NOT_PRESENT, vk.ERROR_FEATURE_NOT_PRESENT,
   vk.ERROR_INCOMPATIBLE_DRIVER, vk.ERROR_TOO_MANY_OBJECTS,
   vk.ERROR_FORMAT_NOT_SUPPORTED, vk.ERROR_SURFACE_LOST_KHR,
   vk.ERROR_NATIVE_WINDOW_IN_USE_KHR, vk.SUBOPTIMAL_KHR,
   vk.ERROR_OUT_OF_DATE_KHR, vk.ERROR_INCOMPATIBLE_DISPLAY_KHR,
   vk.ERROR_VALIDATION_FAILED_EXT]

/-- Mirrors `pub struct ApplicationInfo` (lib.rs lines 33-42).  The borrowed
`&str` names are modelled by their UTF-8 byte sequences. -/
structure ApplicationInfo where
  application_name : List Nat
  application_version : Nat
  engine_name : List Nat
  engine_version : Nat
deriving DecidableEq

/-- Mirrors `vk::ApplicationInfo` as filled by `create` (lib.rs lines
108-116).  The two name pointers are modelled by the NUL-terminated byte
buffers they point to; `pNext` is always the null pointer and is omitted. -/
structure VkApplicationInfo where
  sType : Nat
  pApplicationName : List Nat
  applicationVersion : Nat
  pEngineName : List Nat
  engineVersion : Nat
  apiVersion : Nat
deriving DecidableEq

/-- Mirrors `vk::InstanceCreateInfo` as filled by `create` (lib.rs lines
122-131).  `pApplicationInfo` is an optional pointer (`none` is the null
pointer); the layer and extension name arrays are always null and are
represented by their counts alone. -/
structure VkInstanceCreateInfo where
  sType : Nat
  flags : Nat
  pApplicationInfo : Option VkApplicationInfo
  enabledLayerCount : Nat
  enabledExtensionCount : Nat
deriving DecidableEq

/-- A Rust panic aborting `create`, carrying the formatted panic message. -/
structure Panic where
  message : String
deriving DecidableEq

/-- Panic raised by `DynamicLibrary::open(..).unwrap()` (lib.rs line 96). -/
def openFailPanic : Panic :=
  ⟨"called Result::unwrap on an Err value: DynamicLibrary open failed"⟩

/-- Panic raised by `dynamic_lib.symbol(name).unwrap()` (lib.rs line 99). -/
def symbolFailPanic : Panic :=
  ⟨"called Result::unwrap on an Err value: symbol not found"⟩

/-- Panic raised by `CString::new(..).unwrap()` on an interior NUL byte
(lib.rs lines 106-107). -/
def unwrapNulPanic : Panic :=
  ⟨"called Result::unwrap on an Err value: NulError"⟩

/-- Mirrors `CString::new`: fails exactly when the byte sequence contains an
interior NUL byte, otherwise appends the terminating NUL. -/
def cstring_new (bytes : List Nat) : Option (List Nat) :=
  if 0 ∈ bytes then none else some (bytes ++ [0])

/-- Mirrors the `info_ptr` computation of `create` (lib.rs lines 105-120):
with application info present, convert the application name and then the
engine name through `CString::new(..).unwrap()` (panicking on an interior NUL
byte) and build the `vk::ApplicationInfo` record pointing at the two buffers;
with no application info the pointer is null and no buffers are produced.
The second component of the result is the list of name byte buffers
produced. -/
def buildInfoPtr (app_info : Option ApplicationInfo) :
    Except Panic (Option VkApplicationInfo × List (List Nat)) :=
  match app_info with
  | some info =>
    match cstring_new info.application_name with
    | none => .error unwrapNulPanic
    | some c_app_name =>
      match cstring_new info.engine_name with
      | none => .error unwrapNulPanic
      | some c_engine_name =>
        .ok (some { sType := vk.STRUCTURE_TYPE_APPLICATION_INFO,
                    pApplicationName := c_app_name,
                    applicationVersion := info.application_version,
                    pEngineName := c_engine_name,
                    engineVersion := info.engine_version,
                    apiVersion := 0x400000 },
             [c_app_name, c_engine_name])
  | none => .ok (none, [])

/-- An opaque driver handle, such as a `vk::PhysicalDevice` or
`vk::Instance`. -/
abbrev Handle := Nat

/-- Modelled from the spec: the native Vulkan driver that the backend binds
to (section 2 and the glossary), which is outside the repository.  The model
fixes the outcome of every fallible bootstrap step and the per-device data
the driver serves.  The in/out count protocol of the query entry points
follows the Vulkan specification: the driver writes at most the incoming
count of elements, writes back how many it filled, and
`EnumeratePhysicalDevices` reports `INCOMPLETE` when devices were left
out.  The opaque per-device records (properties, memory, features) and the
individual queue-family descriptors are modelled as `Nat` payloads. -/
structure Driver where
  openOk : Bool
  symbolsOk : Bool
  createInstanceStatus : Int
  instanceHandle : Handle
  deviceHandles : List Handle
  properties : Handle → Nat
  queueFamilies : Handle → List Nat
  memory : Handle → Nat
  features : Handle → Nat

/-- A driver interaction performed during bootstrap, in the order issued.
`loadEntryPoints` resolves the global entry points through
`GetInstanceProcAddr(0, ..)`; `loadInstancePointers` resolves the
instance-scoped function table through `GetInstanceProcAddr` with a real
instance handle. -/
inductive VkCall where
  | openLibrary
  | loadStatic
  | loadEntryPoints
  | createInstance (info : VkInstanceCreateInfo)
  | loadInstancePointers (inst : Handle)
  | enumeratePhysicalDevices (inst : Handle) (capacity : Nat)
  | getProperties (dev : Handle)
  | getQueueFamilies (dev : Handle) (countIn : Nat)
  | getMemory (dev : Handle)
  | getFeatures (dev : Handle)
deriving DecidableEq

/-- Mirrors `struct PhysicalDeviceInfo` (lib.rs lines 44-50). -/
structure PhysicalDeviceInfo where
  device : Handle
  properties : Nat
  queue_families : List Nat
  memory : Nat
  features : Nat
deriving DecidableEq

/-- Mirrors `PhysicalDeviceInfo::new` (lib.rs lines 52-79) against the
driver model.  The four queries run in field order.  The queue-family query
is issued exactly once, passing a single in/out count initialised to the
constant 4 together with a buffer of capacity 4, so a driver following the
Vulkan in/out protocol fills `min 4` of its actual descriptor count and the
subsequent `set_len(num)` keeps exactly those.  Returns the snapshot together
with the driver calls issued. -/
def PhysicalDeviceInfo.new (d : Driver) (dev : Handle) :
    PhysicalDeviceInfo × List VkCall :=
  ({ device := dev
   , properties := d.properties dev
   , queue_families := (d.queueFamilies dev).take 4
   , memory := d.memory dev
   , features := d.features dev },
   [.getProperties dev, .getQueueFamilies dev 4, .getMemory dev,
    .getFeatures dev])

/-- Mirrors `pub struct Backend` (lib.rs lines 82-89).  The loaded library
and the resolved function tables are opaque; for each function table the
model records the instance handle that `GetInstanceProcAddr` was given when
resolving it (0 for the global entry points).  The source field `instance`
is called `inst` here because `instance` is a reserved word. -/
structure Backend where
  dynamic_lib : Unit
  library : Unit
  inst : Handle
  inst_pointers : Handle
  functions : Handle
  devices : List PhysicalDeviceInfo
deriving DecidableEq

/-- The `vk::InstanceCreateInfo` record built by `create` (lib.rs lines
122-131) from the optional application-info pointer. -/
def mkCreateInfo (ip : Option VkApplicationInfo) : VkInstanceCreateInfo :=
  { sType := vk.STRUCTURE_TYPE_INSTANCE_CREATE_INFO
  , flags := 0
  , pApplicationInfo := ip
  , enabledLayerCount := 0
  , enabledExtensionCount := 0 }

/-- Mirrors `pub fn create` (lib.rs lines 91-166) run against the driver
model: open the library, resolve the global symbols, resolve the entry
points (which cannot fail, lib.rs 101-103), build the optional application
info, call `CreateInstance` and check its status, resolve the
instance-scoped function table with the new instance handle, enumerate the
physical devices into a probe of fixed capacity 4 and check the status, then
snapshot each returned device.  Returns the outcome — the backend, or the
panic that aborted the run — together with the trace of driver interactions
made before returning or panicking. -/
def create (d : Driver) (app_info : Option ApplicationInfo) :
    Except Panic Backend × List VkCall :=
  if d.openOk then
    if d.symbolsOk then
      match buildInfoPtr app_info with
      | .error p => (.error p, [.openLibrary, .loadStatic, .loadEntryPoints])
      | .ok ip =>
        let create_info := mkCreateInfo ip.1
        let tr1 : List VkCall :=
          [.openLibrary, .loadStatic, .loadEntryPoints,
           .createInstance create_info]
        if d.createInstanceStatus = vk.SUCCESS then
          let inst := d.instanceHandle
          let tr3 := tr1 ++ [.loadInstancePointers inst,
                             .enumeratePhysicalDevices inst 4]
          let num := min 4 d.deviceHandles.length
          let enumStatus : Int :=
            if d.deviceHandles.length ≤ 4 then vk.SUCCESS else vk.INCOMPLETE
          if enumStatus = vk.SUCCESS then
            let handles := (d.deviceHandles.take 4).take num
            let queried := handles.map (PhysicalDeviceInfo.new d)
            (.ok { dynamic_lib := (), library := (), inst := inst
                 , inst_pointers := inst, functions := 0
                 , devices := queried.map Prod.fst },
             tr3 ++ (queried.map Prod.snd).flatten)
          else
            (.error ⟨"vkEnumeratePhysicalDevices: " ++ (Error.mk enumStatus).fmt⟩,
             tr3)
        else
          (.error ⟨"vkCreateInstance: " ++ (Error.mk d.createInstanceStatus).fmt⟩,
           tr1)
    else
      (.error symbolFailPanic, [.openLibrary, .loadStatic])
  else
    (.error openFailPanic, [.openLibrary])

/-! Case analysis of `create`: one computation lemma per control-flow
outcome of the bootstrap. -/

/-- When the driver library cannot be opened, `create` panics at the first
step, after the lone open attempt. -/
theorem create_open_fail (d : Driver) (a : Option ApplicationInfo)
    (h : d.openOk = false) :
    create d a = (.error openFailPanic, [.openLibrary]) := by
  simp [create, h]

/-- When global symbol resolution fails, `create` panics after the open and
the symbol lookup. -/
theorem create_symbols_fail (d : Driver) (a : Option ApplicationInfo)
    (ho : d.openOk = true) (hs : d.symbolsOk = false) :
    create d a = (.error symbolFailPanic, [.openLibrary, .loadStatic]) := by
  simp [create, ho, hs]

/-- When the application-info conversion panics, `create` stops before any
`CreateInstance` call. -/
theorem create_build_fail (d : Driver) (a : Option ApplicationInfo) (p : Panic)
    (ho : d.openOk = true) (hs : d.symbolsOk = true)
    (hb : buildInfoPtr a = .error p) :
    create d a = (.error p, [.openLibrary, .loadStatic, .loadEntryPoints]) := by
  simp [create, ho, hs, hb]

/-- When `CreateInstance` reports a non-success status, `create` panics with
the formatted category and makes no further driver calls. -/
theorem create_ci_fail (d : Driver) (a : Option ApplicationInfo)
    (ip : Option VkApplicationInfo × List (List Nat))
    (ho : d.openOk = true) (hs : d.symbolsOk = true)
    (hb : buildInfoPtr a = .ok ip)
    (hc : d.createInstanceStatus ≠ vk.SUCCESS) :
    create d a =
      (.error ⟨"vkCreateInstance: " ++ (Error.mk d.createInstanceStatus).fmt⟩,
       [.openLibrary, .loadStatic, .loadEntryPoints,
        .createInstance (mkCreateInfo ip.1)]) := by
  simp [create, ho, hs, hb, hc]

/-- When the driver reports more than 4 physical devices, the conforming
enumeration status is `INCOMPLETE` and `create` panics with its category. -/
theorem create_enum_fail (d : Driver) (a : Option ApplicationInfo)
    (ip : Option VkApplicationInfo × List (List Nat))
    (ho : d.openOk = true) (hs : d.symbolsOk = true)
    (hb : buildInfoPtr a = .ok ip)
    (hc : d.createInstanceStatus = vk.SUCCESS)
    (h4 : 4 < d.deviceHandles.length) :
    create d a =
      (.error ⟨"vkEnumeratePhysicalDevices: incomplete"⟩,
       [.openLibrary, .loadStatic, .loadEntryPoints,
        .createInstance (mkCreateInfo ip.1),
        .loadInstancePointers d.instanceHandle,
        .enumeratePhysicalDevices d.instanceHandle 4]) := by
  have h4' : ¬ d.deviceHandles.length ≤ 4 := not_le.mpr h4
  have hne : vk.INCOMPLETE ≠ vk.SUCCESS := by decide
  have hfmt : (Error.mk vk.INCOMPLETE).fmt = "incomplete" := by decide
  simp [create, ho, hs, hb, hc, h4', hne, hfmt]

/-- When every bootstrap step succeeds and at most 4 devices are reported,
`create` returns the fully populated backend and the full bootstrap trace. -/
theorem create_success (d : Driver) (a : Option ApplicationInfo)
    (ip : Option VkApplicationInfo × List (List Nat))
    (ho : d.openOk = true) (hs : d.symbolsOk = true)
    (hb : buildInfoPtr a = .ok ip)
    (hc : d.createInstanceStatus = vk.SUCCESS)
    (h4 : d.deviceHandles.length ≤ 4) :
    create d a =
      (.ok { dynamic_lib := (), library := (), inst := d.instanceHandle
           , inst_pointers := d.instanceHandle, functions := 0
           , devices :=
               d.deviceHandles.map fun dev => (PhysicalDeviceInfo.new d dev).1 },
       [.openLibrary, .loadStatic, .loadEntryPoints,
        .createInstance (mkCreateInfo ip.1),
        .loadInstancePointers d.instanceHandle,
        .enumeratePhysicalDevices d.instanceHandle 4]
       ++ (d.deviceHandles.map fun dev => (PhysicalDeviceInfo.new d dev).2).flatten) := by
  have ht : d.deviceHandles.take 4 = d.deviceHandles := List.take_of_length_le h4
  have hm : min 4 d.deviceHandles.length = d.deviceHandles.length :=
    Nat.min_eq_right h4
  simp [create, ho, hs, hb, hc, h4, ht, hm, List.take_length, List.map_map,
    Function.comp_def]

/-- Inversion: a successful `create` forces every fallible bootstrap step to
have succeeded and determines the returned backend completely. -/
theorem create_ok_inv (d : Driver) (a : Option ApplicationInfo) (b : Backend)
    (h : (create d a).1 = .ok b) :
    d.openOk = true ∧ d.symbolsOk = true ∧
    (∃ ip, buildInfoPtr a = .ok ip) ∧
    d.createInstanceStatus = vk.SUCCESS ∧ d.deviceHandles.length ≤ 4 ∧
    b = { dynamic_lib := (), library := (), inst := d.instanceHandle
        , inst_pointers := d.instanceHandle, functions := 0
        , devices :=
            d.deviceHandles.map fun dev => (PhysicalDeviceInfo.new d dev).1 } := by
  cases ho : d.openOk with
  | false => rw [create_open_fail d a ho] at h; simp at h
  | true =>
    cases hs : d.symbolsOk with
    | false => rw [create_symbols_fail d a ho hs] at h; simp at h
    | true =>
      cases hb : buildInfoPtr a with
      | error p => rw [create_build_fail d a p ho hs hb] at h; simp at h
      | ok ip =>
        by_cases hc : d.createInstanceStatus = vk.SUCCESS
        · by_cases h4 : d.deviceHandles.length ≤ 4
          · rw [create_success d a ip ho hs hb hc h4] at h
            simp at h
            exact ⟨rfl, rfl, ⟨ip, rfl⟩, hc, h4, h.symm⟩
          · rw [create_enum_fail d a ip ho hs hb hc (not_le.mp h4)] at h
            simp at h
        · rw [create_ci_fail d a ip ho hs hb hc] at h
          simp at h

/-- A driver for which every bootstrap step succeeds, reporting two physical
devices with one queue family each. -/
def okDriver : Driver :=
  { openOk := true, symbolsOk := true, createInstanceStatus := vk.SUCCESS
  , instanceHandle := 5, deviceHandles := [10, 11]
  , properties := fun _ => 0, queueFamilies := fun _ => [1]
  , memory := fun _ => 0, features := fun _ => 0 }

/-- A driver reporting 5 physical devices, one more than the probe holds. -/
def overflowDriver : Driver :=
  { okDriver with deviceHandles := [1, 2, 3, 4, 5] }

/-- A driver whose `CreateInstance` reports `ERROR_INCOMPATIBLE_DRIVER`. -/
def incompatDriver : Driver :=
  { okDriver with createInstanceStatus := vk.ERROR_INCOMPATIBLE_DRIVER }

/-- A driver with one device exposing 7 queue families. -/
def qfDriver : Driver :=
  { okDriver with
    deviceHandles := [10],
    queueFamilies := fun _ => [1, 2, 3, 4, 5, 6, 7] }

/-- Recognises the queue-family query among the driver calls. -/
def isQueueFamilyQuery : VkCall → Bool
  | .getQueueFamilies _ _ => true
  | _ => false

/-- Claim C2, counterexample: against a device exposing 7 queue families the
snapshot keeps 4 descriptors, not 7, and it is produced by a single
queue-family query whose in/out count starts at 4 — not by a count-only
query followed by a fill query — so the count the driver would report (7)
differs from the number of descriptors filled (4). -/
theorem queue_family_two_phase_refuted :
    (qfDriver.queueFamilies 10).length = 7 ∧
    (PhysicalDeviceInfo.new qfDriver 10).1.queue_families.length = 4 ∧
    (PhysicalDeviceInfo.new qfDriver 10).1.queue_families.length ≠
      (qfDriver.queueFamilies 10).length ∧
    (PhysicalDeviceInfo.new qfDriver 10).2.filter isQueueFamilyQuery =
      [VkCall.getQueueFamilies 10 4] := by
  decide

/-- Claim C2, amended: for every physical device captured during `create`,
the queue-family list is obtained by a single query whose in/out count is
initialised to the hard-wired constant 4 (no count-only query is issued),
and the snapshot keeps exactly `min 4` of the driver's actual descriptor
count. -/
theorem queue_families_single_query (d : Driver) (dev : Handle) :
    (PhysicalDeviceInfo.new d dev).2.filter isQueueFamilyQuery =
      [VkCall.getQueueFamilies dev 4] ∧
    (PhysicalDeviceInfo.new d dev).1.queue_families.length =
      min 4 (d.queueFamilies dev).length := by
  refine ⟨rfl, ?_⟩
  simp [PhysicalDeviceInfo.new]

/-- Claim C10: every captured queue-family list has length at most 4; the
query passes an in/out count initialised to the hard-wired 4 and is never
re-issued, so the snapshot is the 4-element prefix of the driver's actual
descriptor list, and a device exposing more than 4 queue families has the
excess descriptors dropped. -/
theorem queue_families_capped (d : Driver) (dev : Handle) :
    (PhysicalDeviceInfo.new d dev).1.queue_families.length ≤ 4 ∧
    (PhysicalDeviceInfo.new d dev).1.queue_families =
      (d.queueFamilies dev).take 4 ∧
    (4 < (d.queueFamilies dev).length →
      (PhysicalDeviceInfo.new d dev).1.queue_families.length = 4) := by
  refine ⟨List.length_take_le 4 _, rfl, fun h => ?_⟩
  simp [PhysicalDeviceInfo.new, Nat.min_eq_left (le_of_lt h)]

/-- Witness for C10 at the 7-queue-family driver: the snapshot keeps exactly
4 descriptors. -/
theorem queue_families_capped_witness :
    (PhysicalDeviceInfo.new qfDriver 10).1.queue_families.length = 4 :=
  (queue_families_capped qfDriver 10).2.2 (by decide)

/-- Claim C3: whenever the driver reports more physical devices than the
probe capacity of 4, `create` never returns a backend; moreover, if the run
reaches the enumeration step, the conforming enumeration status is
`INCOMPLETE` (non-success) and construction aborts fatally with that
category. -/
theorem enumerate_overflow_fatal (d : Driver) (a : Option ApplicationInfo)
    (h4 : 4 < d.deviceHandles.length) :
    (∀ b, (create d a).1 ≠ Except.ok b) ∧
    (d.openOk = true → d.symbolsOk = true →
      d.createInstanceStatus = vk.SUCCESS →
      ∀ ip, buildInfoPtr a = .ok ip →
        (create d a).1 = .error ⟨"vkEnumeratePhysicalDevices: incomplete"⟩) := by
  constructor
  · intro b hb
    obtain ⟨-, -, -, -, hle, -⟩ := create_ok_inv d a b hb
    exact absurd hle (not_le.mpr h4)
  · intro ho hs hc ip hb
    rw [create_enum_fail d a ip ho hs hb hc h4]

/-- Witness for C3 at the 5-device driver: `create` aborts with the
`INCOMPLETE` enumeration panic. -/
theorem enumerate_overflow_fatal_witness :
    (create overflowDriver none).1 =
      .error ⟨"vkEnumeratePhysicalDevices: incomplete"⟩ :=
  (enumerate_overflow_fatal overflowDriver none (by decide)).2 rfl rfl rfl
    (none, []) rfl

/-- Claim C4: with no `ApplicationInfo` supplied, the application-info
construction produces no name byte buffers and yields the null pointer, and
the `CreateInstance` request record handed to the driver carries a null
`pApplicationInfo` field. -/
theorem create_none_null_app_info (d : Driver)
    (ho : d.openOk = true) (hs : d.symbolsOk = true) :
    buildInfoPtr none = .ok (none, ([] : List (List Nat))) ∧
    (mkCreateInfo none).pApplicationInfo = none ∧
    ∃ rest, (create d none).2 =
      [VkCall.openLibrary, VkCall.loadStatic, VkCall.loadEntryPoints,
       VkCall.createInstance (mkCreateInfo none)] ++ rest := by
  refine ⟨rfl, rfl, ?_⟩
  by_cases hc : d.createInstanceStatus = vk.SUCCESS
  · by_cases h4 : d.deviceHandles.length ≤ 4
    · refine ⟨[VkCall.loadInstancePointers d.instanceHandle,
               VkCall.enumeratePhysicalDevices d.instanceHandle 4]
              ++ (d.deviceHandles.map
                    fun dev => (PhysicalDeviceInfo.new d dev).2).flatten, ?_⟩
      rw [create_success d none (none, []) ho hs rfl hc h4]
      simp
    · refine ⟨[VkCall.loadInstancePointers d.instanceHandle,
               VkCall.enumeratePhysicalDevices d.instanceHandle 4], ?_⟩
      rw [create_enum_fail d none (none, []) ho hs rfl hc (not_le.mp h4)]
      simp
  · refine ⟨[], ?_⟩
    rw [create_ci_fail d none (none, []) ho hs rfl hc]
    simp

/-- Witness for C4 at a concrete driver. -/
theorem create_none_null_app_info_witness :
    buildInfoPtr none = .ok (none, ([] : List (List Nat))) ∧
    (mkCreateInfo none).pApplicationInfo = none ∧
    ∃ rest, (create okDriver none).2 =
      [VkCall.openLibrary, VkCall.loadStatic, VkCall.loadEntryPoints,
       VkCall.createInstance (mkCreateInfo none)] ++ rest :=
  create_none_null_app_info okDriver rfl rfl

/-- Claim C5: `Error` maps `ERROR_INCOMPATIBLE_DRIVER` to the fixed category
string "incompatible driver", a `CreateInstance` call returning that status
aborts construction fatally with that category in the panic message, and
every status code without a dedicated arm formats as the catch-all
"unknown". -/
theorem error_fmt_categories :
    (Error.mk vk.ERROR_INCOMPATIBLE_DRIVER).fmt = "incompatible driver" ∧
    (∀ code : Int, code ∉ recognizedCodes → (Error.mk code).fmt = "unknown") ∧
    (∀ d : Driver, d.openOk = true → d.symbolsOk = true →
      d.createInstanceStatus = vk.ERROR_INCOMPATIBLE_DRIVER →
      (create d none).1 = .error ⟨"vkCreateInstance: incompatible driver"⟩) := by
  refine ⟨rfl, ?_, ?_⟩
  · intro code h
    simp only [recognizedCodes, List.mem_cons, List.not_mem_nil, or_false,
      not_or] at h
    simp [Error.fmt, h]
  · intro d ho hs hc
    have hne : d.createInstanceStatus ≠ vk.SUCCESS := by rw [hc]; decide
    rw [create_ci_fail d none (none, []) ho hs rfl hne, hc]
    rfl

/-- Witness for C5: the unclassified code 999 formats as "unknown", and a
concrete incompatible driver aborts `create` with the category in the panic
message. -/
theorem error_fmt_categories_witness :
    (Error.mk 999).fmt = "unknown" ∧
    (create incompatDriver none).1 =
      .error ⟨"vkCreateInstance: incompatible driver"⟩ :=
  ⟨error_fmt_categories.2.1 999 (by decide),
   error_fmt_categories.2.2 incompatDriver rfl rfl rfl⟩

/-- Helper: the per-device query trace contains no resolution of the
instance-scoped function table. -/
theorem lip_not_mem_dev_trace (d : Driver) (dev h : Handle) :
    VkCall.loadInstancePointers h ∉ (PhysicalDeviceInfo.new d dev).2 := by
  simp [PhysicalDeviceInfo.new]

/-- Claim C6: whenever the bootstrap trace contains a resolution of the
instance-scoped function table, `CreateInstance` has already returned
success, the resolution uses the real instance handle, and the trace splits
into the calls before the `CreateInstance` event — none of which resolves
instance-level functions — and the calls after it, among which the
resolution occurs. -/
theorem inst_pointers_resolved_after_instance (d : Driver)
    (a : Option ApplicationInfo) (h : Handle)
    (hmem : VkCall.loadInstancePointers h ∈ (create d a).2) :
    h = d.instanceHandle ∧ d.createInstanceStatus = vk.SUCCESS ∧
    ∃ l1 l2 ci, (create d a).2 = l1 ++ VkCall.createInstance ci :: l2 ∧
      VkCall.loadInstancePointers h ∈ l2 ∧
      ∀ x ∈ l1, ∀ h2, x ≠ VkCall.loadInstancePointers h2 := by
  cases ho : d.openOk with
  | false => rw [create_open_fail d a ho] at hmem; simp at hmem
  | true =>
  cases hs : d.symbolsOk with
  | false => rw [create_symbols_fail d a ho hs] at hmem; simp at hmem
  | true =>
  cases hb : buildInfoPtr a with
  | error p => rw [create_build_fail d a p ho hs hb] at hmem; simp at hmem
  | ok ip =>
  by_cases hc : d.createInstanceStatus = vk.SUCCESS
  · by_cases h4 : d.deviceHandles.length ≤ 4
    · rw [create_success d a ip ho hs hb hc h4] at hmem ⊢
      have hh : h = d.instanceHandle := by
        simp [PhysicalDeviceInfo.new] at hmem
        exact hmem
      subst hh
      refine ⟨rfl, hc,
        [VkCall.openLibrary, VkCall.loadStatic, VkCall.loadEntryPoints],
        VkCall.loadInstancePointers d.instanceHandle ::
          VkCall.enumeratePhysicalDevices d.instanceHandle 4 ::
          (d.deviceHandles.map
            fun dev => (PhysicalDeviceInfo.new d dev).2).flatten,
        mkCreateInfo ip.1, by simp, by simp, by simp⟩
    · rw [create_enum_fail d a ip ho hs hb hc (not_le.mp h4)] at hmem ⊢
      have hh : h = d.instanceHandle := by
        simp at hmem
        exact hmem
      subst hh
      refine ⟨rfl, hc,
        [VkCall.openLibrary, VkCall.loadStatic, VkCall.loadEntryPoints],
        [VkCall.loadInstancePointers d.instanceHandle,
         VkCall.enumeratePhysicalDevices d.instanceHandle 4],
        mkCreateInfo ip.1, by simp, by simp, by simp⟩
  · rw [create_ci_fail d a ip ho hs hb hc] at hmem
    simp at hmem

/-- Witness for C6 at a concrete successful driver. -/
theorem inst_pointers_resolved_after_instance_witness :
    (5 : Handle) = okDriver.instanceHandle ∧
    okDriver.createInstanceStatus = vk.SUCCESS ∧
    ∃ l1 l2 ci, (create okDriver none).2 =
        l1 ++ VkCall.createInstance ci :: l2 ∧
      VkCall.loadInstancePointers 5 ∈ l2 ∧
      ∀ x ∈ l1, ∀ h2, x ≠ VkCall.loadInstancePointers h2 :=
  inst_pointers_resolved_after_instance okDriver none 5 (by decide)

/-- Claim C7: `create` either panics or returns a fully initialised backend.
It returns a backend exactly when every fallible bootstrap step succeeds —
library open, symbol resolution, application-info conversion, instance
creation, device enumeration (the per-device queries return no status) —
and any backend it returns carries the real instance handle, an
instance-scoped function table resolved against that same handle, and one
complete snapshot per reported device. -/
theorem create_all_or_nothing (d : Driver) (a : Option ApplicationInfo) :
    ((∃ b, (create d a).1 = .ok b) ↔
      (d.openOk = true ∧ d.symbolsOk = true ∧
       (∃ ip, buildInfoPtr a = .ok ip) ∧
       d.createInstanceStatus = vk.SUCCESS ∧ d.deviceHandles.length ≤ 4)) ∧
    (∀ b, (create d a).1 = .ok b →
      b.inst = d.instanceHandle ∧ b.inst_pointers = b.inst ∧
      b.devices =
        d.deviceHandles.map (fun dev => (PhysicalDeviceInfo.new d dev).1) ∧
      b.devices.length = d.deviceHandles.length) := by
  constructor
  · constructor
    · rintro ⟨b, hb⟩
      obtain ⟨h1, h2, h3, h4, h5, -⟩ := create_ok_inv d a b hb
      exact ⟨h1, h2, h3, h4, h5⟩
    · rintro ⟨ho, hs, ⟨ip, hb⟩, hc, h4⟩
      exact ⟨_, by rw [create_success d a ip ho hs hb hc h4]⟩
  · intro b hb
    obtain ⟨-, -, -, -, -, hbeq⟩ := create_ok_inv d a b hb
    subst hbeq
    exact ⟨rfl, rfl, rfl, by simp⟩

/-- Witness for C7: the concrete all-success driver yields a backend. -/
theorem create_all_or_nothing_witness :
    ∃ b, (create okDriver none).1 = Except.ok b :=
  (create_all_or_nothing okDriver none).1.mpr
    ⟨rfl, rfl, ⟨(none, []), rfl⟩, rfl, by decide⟩

/-- Claim C9: when either text field of the supplied `ApplicationInfo`
contains an interior NUL byte, `create` panics at the `CString` conversion,
before the application metadata reaches the driver: the trace stops at the
entry-point resolution and contains no `CreateInstance` call. -/
theorem nul_in_name_panics (d : Driver) (info : ApplicationInfo)
    (hnul : (0 : Nat) ∈ info.application_name ∨
            (0 : Nat) ∈ info.engine_name)
    (ho : d.openOk = true) (hs : d.symbolsOk = true) :
    (create d (some info)).1 = .error unwrapNulPanic ∧
    (create d (some info)).2 =
      [VkCall.openLibrary, VkCall.loadStatic, VkCall.loadEntryPoints] := by
  have hb : buildInfoPtr (some info) = .error unwrapNulPanic := by
    rcases hnul with h | h
    · simp [buildInfoPtr, cstring_new, h]
    · by_cases h2 : (0 : Nat) ∈ info.application_name
      · simp [buildInfoPtr, cstring_new, h2]
      · simp [buildInfoPtr, cstring_new, h2, h]
  rw [create_build_fail d (some info) unwrapNulPanic ho hs hb]
  exact ⟨rfl, rfl⟩

/-- Witness for C9: an application name with an interior NUL byte. -/
def nulInfo : ApplicationInfo :=
  { application_name := [104, 0, 105], application_version := 1
  , engine_name := [101], engine_version := 2 }

/-- Witness for C9 at a concrete driver and NUL-bearing application info. -/
theorem nul_in_name_panics_witness :
    (create okDriver (some nulInfo)).1 = .error unwrapNulPanic ∧
    (create okDriver (some nulInfo)).2 =
      [VkCall.openLibrary, VkCall.loadStatic, VkCall.loadEntryPoints] :=
  nul_in_name_panics okDriver nulInfo (Or.inl (by decide)) rfl rfl

end vulkan
